import Mathlib

/-!
Shallow embedding of `src/analysis/advanced_risk_analysis.py`
(class `KillerMoveAnalyzer`).  CSV rows become lists of structures,
pandas frames become lists, and float64 arithmetic is idealised as exact
rational arithmetic (real arithmetic where a square root occurs, namely
in the sample standard deviation used for `bio_gap_volatility`).
-/

/-- Calendar date as parsed by `pd.to_datetime` (year, month, day). -/
structure Date where
  year : Nat
  month : Nat
  day : Nat
  deriving DecidableEq

/-- One row of an enrolment CSV (`api_data_aadhar_enrolment`). -/
structure EnrolRow where
  date : Date
  state : String
  district : String
  pincode : String
  age_0_5 : ℚ
  age_5_17 : ℚ
  age_18_greater : ℚ
  deriving DecidableEq

/-- One row of a demographic-update CSV (`api_data_aadhar_demographic`). -/
structure DemoRow where
  date : Date
  state : String
  district : String
  pincode : String
  demo_age_5_17 : ℚ
  demo_age_17_ : ℚ
  deriving DecidableEq

/-- One row of a biometric-update CSV (`api_data_aadhar_biometric`). -/
structure BioRow where
  date : Date
  state : String
  district : String
  pincode : String
  bio_age_5_17 : ℚ
  bio_age_17_ : ℚ
  deriving DecidableEq

/-- The distinct group keys of a frame, in order of first appearance
(`df.groupby(...)` produces one output row per distinct key). -/
def keysOf {α κ : Type} [DecidableEq κ] (key : α → κ) (l : List α) : List κ :=
  (l.map key).dedup

/-- The rows of a frame belonging to one group key. -/
def groupRows {α κ : Type} [DecidableEq κ] (key : α → κ) (l : List α) (k : κ) : List α :=
  l.filter (fun a => key a = k)

/-- Arithmetic mean of a column (pandas `mean`); groups are never empty. -/
def mean (l : List ℚ) : ℚ :=
  l.sum / (l.length : ℚ)

/-- `enrolment_data.groupby(['date','state','district'])` aggregate
(lines 86-92): sums of the age columns plus a `pincode` count renamed to
`enrol_count`. -/
structure EnrolAgg where
  date : Date
  state : String
  district : String
  age_0_5 : ℚ
  age_5_17 : ℚ
  age_18_greater : ℚ
  enrol_count : ℚ
  deriving DecidableEq

/-- `demographic_data.groupby(['date','state','district'])` aggregate
(lines 94-99). -/
structure DemoAgg where
  date : Date
  state : String
  district : String
  demo_age_5_17 : ℚ
  demo_age_17_ : ℚ
  demo_count : ℚ
  deriving DecidableEq

/-- `biometric_data.groupby(['date','state','district'])` aggregate
(lines 101-106). -/
structure BioAgg where
  date : Date
  state : String
  district : String
  bio_age_5_17 : ℚ
  bio_age_17_ : ℚ
  bio_count : ℚ
  deriving DecidableEq

def enrolKey (r : EnrolRow) : Date × String × String := (r.date, r.state, r.district)

def demoKey (r : DemoRow) : Date × String × String := (r.date, r.state, r.district)

def bioKey (r : BioRow) : Date × String × String := (r.date, r.state, r.district)

def enrolAggKey (r : EnrolAgg) : Date × String × String := (r.date, r.state, r.district)

def demoAggKey (r : DemoAgg) : Date × String × String := (r.date, r.state, r.district)

def bioAggKey (r : BioAgg) : Date × String × String := (r.date, r.state, r.district)

/-- Lines 86-92 of the source. -/
def enrol_agg (l : List EnrolRow) : List EnrolAgg :=
  (keysOf enrolKey l).map fun k =>
    let g := groupRows enrolKey l k
    { date := k.1, state := k.2.1, district := k.2.2,
      age_0_5 := (g.map fun r => r.age_0_5).sum,
      age_5_17 := (g.map fun r => r.age_5_17).sum,
      age_18_greater := (g.map fun r => r.age_18_greater).sum,
      enrol_count := (g.length : ℚ) }

/-- Lines 94-99 of the source. -/
def demo_agg (l : List DemoRow) : List DemoAgg :=
  (keysOf demoKey l).map fun k =>
    let g := groupRows demoKey l k
    { date := k.1, state := k.2.1, district := k.2.2,
      demo_age_5_17 := (g.map fun r => r.demo_age_5_17).sum,
      demo_age_17_ := (g.map fun r => r.demo_age_17_).sum,
      demo_count := (g.length : ℚ) }

/-- Lines 101-106 of the source. -/
def bio_agg (l : List BioRow) : List BioAgg :=
  (keysOf bioKey l).map fun k =>
    let g := groupRows bioKey l k
    { date := k.1, state := k.2.1, district := k.2.2,
      bio_age_5_17 := (g.map fun r => r.bio_age_5_17).sum,
      bio_age_17_ := (g.map fun r => r.bio_age_17_).sum,
      bio_count := (g.length : ℚ) }

/-- Key order of a pandas outer merge on frames with unique keys: the
left keys in order, then the right-only keys in order. -/
def mergeKeys {κ : Type} [DecidableEq κ] (ks1 ks2 : List κ) : List κ :=
  ks1 ++ ks2.filter (fun k => k ∉ ks1)

/-- Keys of `enrol_agg.merge(demo_agg, how='outer').merge(bio_agg, how='outer')`
(lines 109-117). -/
def combinedKeys (eA : List EnrolAgg) (dA : List DemoAgg) (bA : List BioAgg) :
    List (Date × String × String) :=
  mergeKeys (mergeKeys (eA.map enrolAggKey) (dA.map demoAggKey)) (bA.map bioAggKey)

/-- Numeric columns of the merged frame after `combined.fillna(0)`
(lines 109-119): a side absent at a key contributes zeros. -/
structure MergedRow where
  date : Date
  state : String
  district : String
  age_0_5 : ℚ
  age_5_17 : ℚ
  age_18_greater : ℚ
  enrol_count : ℚ
  demo_age_5_17 : ℚ
  demo_age_17_ : ℚ
  demo_count : ℚ
  bio_age_5_17 : ℚ
  bio_age_17_ : ℚ
  bio_count : ℚ
  deriving DecidableEq

/-- The merged row at one key: each side is looked up by key and its
columns default to 0 when the side is absent (outer merge + `fillna(0)`). -/
def mergedRowAt (eA : List EnrolAgg) (dA : List DemoAgg) (bA : List BioAgg)
    (k : Date × String × String) : MergedRow :=
  let eo := eA.find? fun r => enrolAggKey r = k
  let dOpt := dA.find? fun r => demoAggKey r = k
  let bo := bA.find? fun r => bioAggKey r = k
  { date := k.1, state := k.2.1, district := k.2.2,
    age_0_5 := (eo.map fun r => r.age_0_5).getD 0,
    age_5_17 := (eo.map fun r => r.age_5_17).getD 0,
    age_18_greater := (eo.map fun r => r.age_18_greater).getD 0,
    enrol_count := (eo.map fun r => r.enrol_count).getD 0,
    demo_age_5_17 := (dOpt.map fun r => r.demo_age_5_17).getD 0,
    demo_age_17_ := (dOpt.map fun r => r.demo_age_17_).getD 0,
    demo_count := (dOpt.map fun r => r.demo_count).getD 0,
    bio_age_5_17 := (bo.map fun r => r.bio_age_5_17).getD 0,
    bio_age_17_ := (bo.map fun r => r.bio_age_17_).getD 0,
    bio_count := (bo.map fun r => r.bio_count).getD 0 }

/-- A row of `combined_data` after `_engineer_features` (lines 127-178).
The `day_of_week` column is not modelled; no later stage reads it. -/
structure CombinedRow extends MergedRow where
  total_enrol : ℚ
  total_demo : ℚ
  total_bio : ℚ
  demo_enrol_gap : ℚ
  bio_enrol_gap : ℚ
  bio_demo_gap : ℚ
  demo_completion_rate : ℚ
  bio_completion_rate : ℚ
  youth_ratio_enrol : ℚ
  youth_ratio_demo : ℚ
  youth_ratio_bio : ℚ
  month : Nat
  quarter : Nat
  is_quarter_end : Nat
  is_harvest_season : Nat
  is_festival_season : Nat
  deriving DecidableEq

/-- `_engineer_features` (lines 127-178), acting on one row: the pandas
code is column-wise and rowwise independent.  The `np.where` guards of
lines 142-168 become `if` on the same conditions. -/
def engineerFeatures (m : MergedRow) : CombinedRow :=
  let total_enrol := m.age_0_5 + m.age_5_17 + m.age_18_greater
  let total_demo := m.demo_age_5_17 + m.demo_age_17_
  let total_bio := m.bio_age_5_17 + m.bio_age_17_
  { toMergedRow := m,
    total_enrol := total_enrol,
    total_demo := total_demo,
    total_bio := total_bio,
    demo_enrol_gap := m.enrol_count - m.demo_count,
    bio_enrol_gap := m.enrol_count - m.bio_count,
    bio_demo_gap := m.demo_count - m.bio_count,
    demo_completion_rate :=
      if 0 < m.enrol_count then m.demo_count / m.enrol_count * 100 else 100,
    bio_completion_rate :=
      if 0 < m.enrol_count then m.bio_count / m.enrol_count * 100 else 100,
    youth_ratio_enrol := if 0 < total_enrol then m.age_5_17 / total_enrol else 0,
    youth_ratio_demo := if 0 < total_demo then m.demo_age_5_17 / total_demo else 0,
    youth_ratio_bio := if 0 < total_bio then m.bio_age_5_17 / total_bio else 0,
    month := m.date.month,
    quarter := (m.date.month + 2) / 3,
    is_quarter_end := if m.date.month ∈ [3, 6, 9, 12] then 1 else 0,
    is_harvest_season := if m.date.month ∈ [4, 5, 10, 11] then 1 else 0,
    is_festival_season := if m.date.month ∈ [10, 11, 3, 4] then 1 else 0 }

/-- `create_integrated_dataset` (lines 81-125): aggregate each dataset at
(date, state, district), outer-merge the three aggregates, fill the
missing sides with 0 and engineer the derived features. -/
def create_integrated_dataset (e : List EnrolRow) (d : List DemoRow) (b : List BioRow) :
    List CombinedRow :=
  let eA := enrol_agg e
  let dA := demo_agg d
  let bA := bio_agg b
  (combinedKeys eA dA bA).map fun k => engineerFeatures (mergedRowAt eA dA bA k)

/-- Key of a combined row, as used by the district-level groupby. -/
def combKey (r : CombinedRow) : Date × String × String := (r.date, r.state, r.district)

/-- Key of the district-level groupby of `calculate_exclusion_risk_score`. -/
def districtKey (r : CombinedRow) : String × String := (r.state, r.district)

/-- Sample standard deviation (pandas `std`, ddof = 1).  For a group of
at most one row pandas yields NaN, which line 299 of the source
(`fillna(0)` on `bio_gap_volatility`) replaces by 0; the guard below
folds that replacement in. -/
noncomputable def sampleStd (l : List ℚ) : ℝ :=
  if l.length ≤ 1 then 0
  else Real.sqrt (((((l.map fun x => (x - mean l) ^ 2).sum) / ((l.length : ℚ) - 1)) : ℚ) : ℝ)

/-- The district-level aggregate of lines 285-299 (columns renamed as on
lines 294-296). -/
structure DistrictAgg where
  state : String
  district : String
  avg_bio_completion : ℚ
  avg_demo_completion : ℚ
  avg_bio_gap : ℚ
  bio_gap_volatility : ℝ
  youth_ratio_enrol : ℚ
  youth_ratio_bio : ℚ
  total_enrolments : ℚ

/-- `combined_data.groupby(['state','district']).agg(...)` of lines
285-299: one row per distinct (state, district) pair. -/
noncomputable def districtAgg (df : List CombinedRow) : List DistrictAgg :=
  (keysOf districtKey df).map fun k =>
    let g := groupRows districtKey df k
    { state := k.1, district := k.2,
      avg_bio_completion := mean (g.map fun r => r.bio_completion_rate),
      avg_demo_completion := mean (g.map fun r => r.demo_completion_rate),
      avg_bio_gap := mean (g.map fun r => r.bio_enrol_gap),
      bio_gap_volatility := sampleStd (g.map fun r => r.bio_enrol_gap),
      youth_ratio_enrol := mean (g.map fun r => r.youth_ratio_enrol),
      youth_ratio_bio := mean (g.map fun r => r.youth_ratio_bio),
      total_enrolments := (g.map fun r => r.enrol_count).sum }

/-- `Series.clip(lo, hi)` of pandas / `np.clip`. -/
def clip (x lo hi : ℚ) : ℚ := min (max x lo) hi

/-- `Series.rank(pct=True)` of pandas with the default average method:
the mean 1-based position of the tied block of `x`, divided by the
column length. -/
def rankPct (l : List ℚ) (x : ℚ) : ℚ :=
  (((l.filter fun y => y < x).length : ℚ)
      + (((l.filter fun y => y = x).length : ℚ) + 1) / 2) / (l.length : ℚ)

/-- `Series.max()` over the volatility column; all entries are
nonnegative, so folding `max` from 0 agrees with the pandas maximum. -/
noncomputable def listMaxR (l : List ℝ) : ℝ := l.foldr max 0

/-- `Series.round(2)` of line 333, idealised as round-to-nearest at two
decimal places. -/
noncomputable def round2 (x : ℝ) : ℝ := ((round (x * 100) : ℤ) : ℝ) / 100

/-- The `risk_category` labels of line 339. -/
inductive RiskCat
  | Low
  | Medium
  | High
  | Critical
  deriving DecidableEq

/-- `pd.cut(CERS, bins=[0,30,50,70,100], labels=[...])` of lines 336-340:
left-open right-closed bins, values outside (0, 100] get no label. -/
noncomputable def riskCategory (c : ℝ) : Option RiskCat :=
  if 0 < c ∧ c ≤ 30 then some RiskCat.Low
  else if 30 < c ∧ c ≤ 50 then some RiskCat.Medium
  else if 50 < c ∧ c ≤ 70 then some RiskCat.High
  else if 70 < c ∧ c ≤ 100 then some RiskCat.Critical
  else none

/-- One row of the district risk table returned by
`calculate_exclusion_risk_score`. -/
structure DistrictRiskRow where
  state : String
  district : String
  avg_bio_completion : ℚ
  avg_demo_completion : ℚ
  avg_bio_gap : ℚ
  bio_gap_volatility : ℝ
  youth_ratio_enrol : ℚ
  youth_ratio_bio : ℚ
  total_enrolments : ℚ
  gap_risk : ℚ
  migration_risk : ℚ
  volatility_risk : ℝ
  volume_rank : ℚ
  volume_pressure_risk : ℚ
  CERS : ℝ
  risk_category : Option RiskCat

/-- The component scores and composite CERS of lines 301-340, for one
district row; `maxVol` is the table-wide maximum of
`bio_gap_volatility` (line 313) and `allTotals` the `total_enrolments`
column against which line 322 ranks. -/
noncomputable def scoreRow (maxVol : ℝ) (allTotals : List ℚ) (a : DistrictAgg) :
    DistrictRiskRow :=
  let gap := 100 - clip a.avg_bio_completion 0 100
  let mig := clip (|a.youth_ratio_enrol - a.youth_ratio_bio| * 500) 0 100
  let vol : ℝ := if 0 < maxVol then a.bio_gap_volatility / maxVol * 100 else 0
  let vrank := rankPct allTotals a.total_enrolments
  let vp := clip (vrank * (100 - a.avg_bio_completion)) 0 100
  let cers := round2 ((gap : ℝ) * 0.40 + (mig : ℝ) * 0.25 + vol * 0.20 + (vp : ℝ) * 0.15)
  { state := a.state, district := a.district,
    avg_bio_completion := a.avg_bio_completion,
    avg_demo_completion := a.avg_demo_completion,
    avg_bio_gap := a.avg_bio_gap,
    bio_gap_volatility := a.bio_gap_volatility,
    youth_ratio_enrol := a.youth_ratio_enrol,
    youth_ratio_bio := a.youth_ratio_bio,
    total_enrolments := a.total_enrolments,
    gap_risk := gap,
    migration_risk := mig,
    volatility_risk := vol,
    volume_rank := vrank,
    volume_pressure_risk := vp,
    CERS := cers,
    risk_category := riskCategory cers }

/-- Insertion step of the descending sort on the CERS column. -/
noncomputable def insertCERS (r : DistrictRiskRow) :
    List DistrictRiskRow → List DistrictRiskRow
  | [] => [r]
  | x :: xs => if x.CERS ≤ r.CERS then r :: x :: xs else x :: insertCERS r xs

/-- `district_risk.sort_values('CERS', ascending=False)` of line 343. -/
noncomputable def sortByCERS (l : List DistrictRiskRow) : List DistrictRiskRow :=
  l.foldr insertCERS []

/-- `calculate_exclusion_risk_score` (lines 269-368): group the combined
data by (state, district), attach the four component scores and the
composite CERS, and sort by CERS descending. -/
noncomputable def calculate_exclusion_risk_score (df : List CombinedRow) :
    List DistrictRiskRow :=
  let base := districtAgg df
  let maxVol := listMaxR (base.map fun a => a.bio_gap_volatility)
  let totals := base.map fun a => a.total_enrolments
  sortByCERS (base.map (scoreRow maxVol totals))

/-- `(district_risk['risk_category'] == label).sum()` of lines 351-354. -/
def countCategory (l : List DistrictRiskRow) (c : RiskCat) : Nat :=
  (l.filter fun r => r.risk_category = some c).length

/-- The counting part of `risk_summary` (lines 349-355). -/
structure RiskSummary where
  total_districts : Nat
  critical_risk_districts : Nat
  high_risk_districts : Nat
  medium_risk_districts : Nat
  low_risk_districts : Nat
  deriving DecidableEq

def risk_summary (l : List DistrictRiskRow) : RiskSummary :=
  { total_districts := l.length,
    critical_risk_districts := countCategory l RiskCat.Critical,
    high_risk_districts := countCategory l RiskCat.High,
    medium_risk_districts := countCategory l RiskCat.Medium,
    low_risk_districts := countCategory l RiskCat.Low }

/-- `generate_executive_report` (lines 722-967), modelled shallowly:
only the header of the Markdown template is rendered, in particular the
`datetime.now().strftime('%B %d, %Y')` date of line 732 and the summary
counts; chart generation and the remaining templating are generic
rendering glue, out of scope per the spec. -/
def generate_executive_report (today : String) (s : RiskSummary) : String :=
  "# UIDAI AADHAAR HACKATHON 2026 - strategic analysis SUBMISSION\n"
    ++ "**Prepared by:** Senior Data Scientist & Public Policy Strategist\n"
    ++ "**Date:** " ++ today ++ "\n"
    ++ "**Dataset Coverage:** " ++ toString s.total_districts
    ++ " districts across India\n"
    ++ "- " ++ toString s.critical_risk_districts
    ++ " districts in CRITICAL risk category (CERS > 70)\n"
    ++ "- " ++ toString s.high_risk_districts
    ++ " districts in HIGH risk category (CERS 50-70)\n"

/-- The artefacts of one run of the pipeline. -/
structure Outputs where
  combined : List CombinedRow
  cers : List DistrictRiskRow
  report : String

/-- `run_full_analysis` (lines 969-991) as a function of the loaded
input rows and of the wall-clock date read by `datetime.now()` inside
`generate_executive_report`. -/
noncomputable def run_full_analysis (e : List EnrolRow) (d : List DemoRow)
    (b : List BioRow) (today : String) : Outputs :=
  let combined := create_integrated_dataset e d b
  let cers := calculate_exclusion_risk_score combined
  { combined := combined, cers := cers,
    report := generate_executive_report today (risk_summary cers) }

/-- The method calls of the body of `run_full_analysis` (lines 975-982). -/
inductive Stage
  | load
  | integrate
  | hidden_pattern
  | score
  | interventions
  | economic_impact
  | visualize
  | report
  deriving DecidableEq

/-- The stage sequence executed by `run_full_analysis`, in source order:
`load_all_datasets`, `create_integrated_dataset`, `discover_hidden_pattern`,
`calculate_exclusion_risk_score`, `propose_intervention_framework`,
`quantify_economic_impact`, `generate_visualizations`,
`generate_executive_report`. -/
def pipelineTrace : List Stage :=
  [Stage.load, Stage.integrate, Stage.hidden_pattern, Stage.score,
   Stage.interventions, Stage.economic_impact, Stage.visualize, Stage.report]

/-! ### Concrete inputs evaluated by the witnesses -/

def dt0 : Date := { year := 2025, month := 1, day := 15 }

def er0 : EnrolRow :=
  { date := dt0, state := "A", district := "B", pincode := "110001",
    age_0_5 := 2, age_5_17 := 3, age_18_greater := 5 }

def dr0 : DemoRow :=
  { date := dt0, state := "C", district := "D", pincode := "110002",
    demo_age_5_17 := 4, demo_age_17_ := 6 }

/-- The combined row produced for the key of `er0` (demographic and
biometric sides absent). -/
def rowAB : CombinedRow :=
  engineerFeatures (mergedRowAt (enrol_agg [er0]) (demo_agg [dr0]) (bio_agg []) (dt0, "A", "B"))

/-- The combined row produced for the key of `dr0` (enrolment and
biometric sides absent). -/
def rowCD : CombinedRow :=
  engineerFeatures (mergedRowAt (enrol_agg [er0]) (demo_agg [dr0]) (bio_agg []) (dt0, "C", "D"))

/-- A sample combined row fed to the scoring stage by the witnesses. -/
def c0 : CombinedRow :=
  { date := dt0, state := "A", district := "B",
    age_0_5 := 0, age_5_17 := 0, age_18_greater := 0, enrol_count := 10,
    demo_age_5_17 := 0, demo_age_17_ := 0, demo_count := 5,
    bio_age_5_17 := 0, bio_age_17_ := 0, bio_count := 5,
    total_enrol := 0, total_demo := 0, total_bio := 0,
    demo_enrol_gap := 5, bio_enrol_gap := 0, bio_demo_gap := 0,
    demo_completion_rate := 50, bio_completion_rate := 50,
    youth_ratio_enrol := 0, youth_ratio_demo := 0, youth_ratio_bio := 0,
    month := 1, quarter := 1, is_quarter_end := 0,
    is_harvest_season := 0, is_festival_season := 0 }

/-- The district aggregate of `[c0]`. -/
def a0 : DistrictAgg :=
  { state := "A", district := "B",
    avg_bio_completion := 50, avg_demo_completion := 50, avg_bio_gap := 0,
    bio_gap_volatility := 0, youth_ratio_enrol := 0, youth_ratio_bio := 0,
    total_enrolments := 10 }

/-- The scored district row of `[c0]`:
CERS = round2(50 * 0.40 + 0 * 0.25 + 0 * 0.20 + 50 * 0.15) = 27.5. -/
noncomputable def r0 : DistrictRiskRow := scoreRow 0 [(10 : ℚ)] a0

/-- Like `c0` but with full biometric completion: its district scores 0
on every component, so its CERS is exactly 0. -/
def c1 : CombinedRow := { c0 with bio_completion_rate := 100 }

def a1 : DistrictAgg := { a0 with avg_bio_completion := 100 }

/-- The scored district row of `[c1]`: CERS = 0 and no risk category. -/
noncomputable def r1 : DistrictRiskRow := scoreRow 0 [(10 : ℚ)] a1

/-! ### Generic lemmas about the embedding -/

theorem map_key_map {κ β : Type} (f : κ → β) (p : β → κ) (h : ∀ k, p (f k) = k) :
    ∀ l : List κ, (l.map f).map p = l := by
  intro l
  induction l with
  | nil => rfl
  | cons a t ih => simp [h a, ih]

theorem mem_mergeKeys {κ : Type} [DecidableEq κ] (a b : List κ) (k : κ) :
    k ∈ mergeKeys a b ↔ k ∈ a ∨ k ∈ b := by
  by_cases hk : k ∈ a
  · simp [mergeKeys, hk]
  · simp [mergeKeys, hk]

theorem nodup_mergeKeys {κ : Type} [DecidableEq κ] {a b : List κ}
    (ha : a.Nodup) (hb : b.Nodup) : (mergeKeys a b).Nodup := by
  unfold mergeKeys
  rw [List.nodup_append]
  refine ⟨ha, hb.filter _, ?_⟩
  intro k hk hk2
  rw [List.mem_filter] at hk2
  simp only [decide_eq_true_eq] at hk2
  exact hk2.2 hk

theorem find_eq_none_of_key {β κ : Type} [DecidableEq κ] (p : β → κ) (l : List β) (k : κ)
    (h : k ∉ l.map p) : (l.find? fun r => p r = k) = none := by
  rw [List.find?_eq_none]
  intro x hx
  simp only [decide_eq_true_eq]
  intro hpx
  exact h (List.mem_map.mpr ⟨x, hx, hpx⟩)

theorem enrol_agg_keys (l : List EnrolRow) :
    (enrol_agg l).map enrolAggKey = keysOf enrolKey l :=
  map_key_map _ _ (fun k => rfl) _

theorem demo_agg_keys (l : List DemoRow) :
    (demo_agg l).map demoAggKey = keysOf demoKey l :=
  map_key_map _ _ (fun k => rfl) _

theorem bio_agg_keys (l : List BioRow) :
    (bio_agg l).map bioAggKey = keysOf bioKey l :=
  map_key_map _ _ (fun k => rfl) _

theorem create_keys (e : List EnrolRow) (d : List DemoRow) (b : List BioRow) :
    (create_integrated_dataset e d b).map combKey
      = combinedKeys (enrol_agg e) (demo_agg d) (bio_agg b) :=
  map_key_map _ _ (fun k => rfl) _

theorem districtAgg_keys (df : List CombinedRow) :
    (districtAgg df).map (fun a => (a.state, a.district)) = keysOf districtKey df :=
  map_key_map _ _ (fun k => rfl) _

theorem mem_create (e : List EnrolRow) (d : List DemoRow) (b : List BioRow)
    (r : CombinedRow) :
    r ∈ create_integrated_dataset e d b ↔
      ∃ k ∈ combinedKeys (enrol_agg e) (demo_agg d) (bio_agg b),
        r = engineerFeatures (mergedRowAt (enrol_agg e) (demo_agg d) (bio_agg b) k) := by
  unfold create_integrated_dataset
  simp [List.mem_map, eq_comm]

theorem insertCERS_perm (r : DistrictRiskRow) (l : List DistrictRiskRow) :
    (insertCERS r l).Perm (r :: l) := by
  induction l with
  | nil => exact List.Perm.refl _
  | cons x xs ih =>
    unfold insertCERS
    split
    · exact List.Perm.refl _
    · exact (ih.cons x).trans (List.Perm.swap r x xs)

theorem sortByCERS_perm (l : List DistrictRiskRow) : (sortByCERS l).Perm l := by
  induction l with
  | nil => exact List.Perm.refl _
  | cons x xs ih => exact (insertCERS_perm x (sortByCERS xs)).trans (ih.cons x)

theorem sorted_insertCERS (r : DistrictRiskRow) (l : List DistrictRiskRow)
    (h : l.Sorted fun a b => b.CERS ≤ a.CERS) :
    (insertCERS r l).Sorted fun a b => b.CERS ≤ a.CERS := by
  induction l with
  | nil => simp [insertCERS]
  | cons x xs ih =>
    rw [List.sorted_cons] at h
    unfold insertCERS
    split
    case isTrue hc =>
      rw [List.sorted_cons]
      refine ⟨?_, List.sorted_cons.mpr h⟩
      intro b hb
      rcases List.mem_cons.mp hb with rfl | hb2
      · exact hc
      · exact le_trans (h.1 b hb2) hc
    case isFalse hc =>
      rw [List.sorted_cons]
      refine ⟨?_, ih h.2⟩
      intro b hb
      rcases List.mem_cons.mp ((insertCERS_perm r xs).mem_iff.mp hb) with rfl | hb3
      · exact le_of_lt (lt_of_not_le hc)
      · exact h.1 b hb3

theorem sortByCERS_sorted (l : List DistrictRiskRow) :
    (sortByCERS l).Sorted fun a b => b.CERS ≤ a.CERS := by
  induction l with
  | nil => simp [sortByCERS]
  | cons x xs ih => exact sorted_insertCERS x (sortByCERS xs) ih

theorem mem_calc (df : List CombinedRow) (r : DistrictRiskRow) :
    r ∈ calculate_exclusion_risk_score df ↔
      ∃ a ∈ districtAgg df,
        r = scoreRow (listMaxR ((districtAgg df).map fun x => x.bio_gap_volatility))
              ((districtAgg df).map fun x => x.total_enrolments) a := by
  unfold calculate_exclusion_risk_score
  rw [(sortByCERS_perm _).mem_iff]
  simp [List.mem_map, eq_comm]

theorem districtAgg_fields {df : List CombinedRow} {a : DistrictAgg}
    (h : a ∈ districtAgg df) :
    a.avg_bio_completion
        = mean ((groupRows districtKey df (a.state, a.district)).map fun x => x.bio_completion_rate)
    ∧ a.avg_demo_completion
        = mean ((groupRows districtKey df (a.state, a.district)).map fun x => x.demo_completion_rate)
    ∧ a.avg_bio_gap
        = mean ((groupRows districtKey df (a.state, a.district)).map fun x => x.bio_enrol_gap)
    ∧ a.bio_gap_volatility
        = sampleStd ((groupRows districtKey df (a.state, a.district)).map fun x => x.bio_enrol_gap)
    ∧ a.youth_ratio_enrol
        = mean ((groupRows districtKey df (a.state, a.district)).map fun x => x.youth_ratio_enrol)
    ∧ a.youth_ratio_bio
        = mean ((groupRows districtKey df (a.state, a.district)).map fun x => x.youth_ratio_bio)
    ∧ a.total_enrolments
        = ((groupRows districtKey df (a.state, a.district)).map fun x => x.enrol_count).sum := by
  unfold districtAgg at h
  rw [List.mem_map] at h
  obtain ⟨k, hk, ha⟩ := h
  obtain ⟨k1, k2⟩ := k
  subst ha
  exact ⟨rfl, rfl, rfl, rfl, rfl, rfl, rfl⟩

theorem sampleStd_nonneg (l : List ℚ) : 0 ≤ sampleStd l := by
  unfold sampleStd
  split
  · exact le_refl 0
  · exact Real.sqrt_nonneg _

theorem le_listMaxR {x : ℝ} {l : List ℝ} (h : x ∈ l) : x ≤ listMaxR l := by
  induction l with
  | nil => cases h
  | cons a t ih =>
    rcases List.mem_cons.mp h with rfl | h2
    · exact le_max_left _ _
    · exact le_trans (ih h2) (le_max_right _ _)

theorem clip_nonneg (x : ℚ) : 0 ≤ clip x 0 100 :=
  le_min (le_max_right x 0) (by norm_num)

theorem clip_le100 (x : ℚ) : clip x 0 100 ≤ 100 := min_le_right _ _

theorem round2_nonneg {x : ℝ} (h : 0 ≤ x) : 0 ≤ round2 x := by
  unfold round2
  apply div_nonneg _ (by norm_num : (0:ℝ) ≤ 100)
  have h2 : (0:ℤ) ≤ round (x * 100) := by
    rw [round_eq]
    exact Int.floor_nonneg.mpr (by linarith)
  exact_mod_cast h2

theorem round2_le100 {x : ℝ} (h : x ≤ 100) : round2 x ≤ 100 := by
  unfold round2
  rw [div_le_iff (by norm_num : (0:ℝ) < 100)]
  have h1 : ((round (x * 100) : ℤ) : ℝ) ≤ x * 100 + 1/2 := by
    rw [round_eq]
    exact Int.floor_le _
  have h4 : ((round (x * 100) : ℤ) : ℝ) < 10001 := lt_of_le_of_lt h1 (by linarith)
  have h5 : (round (x * 100) : ℤ) < 10001 := by exact_mod_cast h4
  calc ((round (x * 100) : ℤ) : ℝ) ≤ ((10000 : ℤ) : ℝ) := by exact_mod_cast (by omega : (round (x * 100) : ℤ) ≤ 10000)
    _ = 100 * 100 := by norm_num

theorem round2_eval (x : ℝ) (n : ℤ) (h1 : (n : ℝ) ≤ x * 100 + 1/2)
    (h2 : x * 100 + 1/2 < (n : ℝ) + 1) : round2 x = (n : ℝ) / 100 := by
  unfold round2
  rw [round_eq, Int.floor_eq_iff.mpr ⟨h1, h2⟩]

/-! ### Evaluation lemmas at the concrete witness inputs -/

theorem round2_275 : round2 (27.5 : ℝ) = 27.5 := by
  rw [round2_eval 27.5 2750 (by norm_num) (by norm_num)]
  norm_num

theorem round2_zero : round2 (0 : ℝ) = 0 := by
  unfold round2
  rw [zero_mul, round_zero]
  norm_num

theorem riskCategory_275 : riskCategory (27.5 : ℝ) = some RiskCat.Low := by
  unfold riskCategory
  rw [if_pos (by norm_num : (0:ℝ) < 27.5 ∧ (27.5:ℝ) ≤ 30)]

theorem riskCategory_zero : riskCategory (0 : ℝ) = none := by
  unfold riskCategory
  rw [if_neg (by norm_num), if_neg (by norm_num), if_neg (by norm_num), if_neg (by norm_num)]


theorem clip_eval {x lo hi : ℚ} (h1 : lo ≤ x) (h2 : x ≤ hi) : clip x lo hi = x := by
  unfold clip
  rw [max_eq_left h1, min_eq_left h2]

theorem rankPct_single (x : ℚ) : rankPct [x] x = 1 := by
  unfold rankPct
  simp [List.filter_cons, lt_irrefl]

theorem districtAgg_c0 : districtAgg [c0] = [a0] := by
  unfold districtAgg
  rw [show keysOf districtKey [c0] = [("A", "B")] from by decide]
  simp only [List.map_cons, List.map_nil]
  rw [show groupRows districtKey [c0] ("A", "B") = [c0] from by decide]
  simp only [List.map_cons, List.map_nil, List.cons.injEq, and_true]
  unfold a0
  rw [DistrictAgg.mk.injEq]
  refine ⟨rfl, rfl, by simp [mean, c0], by simp [mean, c0], by simp [mean, c0], ?_,
    by simp [mean, c0], by simp [mean, c0], by simp [c0]⟩
  unfold sampleStd
  rw [if_pos (by decide : List.length [c0.bio_enrol_gap] ≤ 1)]

theorem districtAgg_c1 : districtAgg [c1] = [a1] := by
  unfold districtAgg
  rw [show keysOf districtKey [c1] = [("A", "B")] from by decide]
  simp only [List.map_cons, List.map_nil]
  rw [show groupRows districtKey [c1] ("A", "B") = [c1] from by decide]
  simp only [List.map_cons, List.map_nil, List.cons.injEq, and_true]
  unfold a1 a0
  rw [DistrictAgg.mk.injEq]
  refine ⟨rfl, rfl, by simp [mean, c1, c0], by simp [mean, c1, c0], by simp [mean, c1, c0], ?_,
    by simp [mean, c1, c0], by simp [mean, c1, c0], by simp [c1, c0]⟩
  unfold sampleStd
  rw [if_pos (by decide : List.length [c1.bio_enrol_gap] ≤ 1)]

theorem listMaxR_a0 : listMaxR [a0.bio_gap_volatility] = 0 := by
  show max a0.bio_gap_volatility 0 = 0
  show max (0:ℝ) 0 = 0
  exact max_self 0

theorem listMaxR_a1 : listMaxR [a1.bio_gap_volatility] = 0 := by
  show max a1.bio_gap_volatility 0 = 0
  show max (0:ℝ) 0 = 0
  exact max_self 0

theorem r0_gap : r0.gap_risk = 50 := by
  show 100 - clip a0.avg_bio_completion 0 100 = 50
  rw [show a0.avg_bio_completion = 50 from rfl]
  rw [clip_eval (by norm_num) (by norm_num)]
  norm_num

theorem r0_mig : r0.migration_risk = 0 := by
  show clip (|a0.youth_ratio_enrol - a0.youth_ratio_bio| * 500) 0 100 = 0
  rw [show a0.youth_ratio_enrol = 0 from rfl, show a0.youth_ratio_bio = 0 from rfl]
  rw [show |(0:ℚ) - 0| * 500 = 0 from by simp]
  exact clip_eval (le_refl 0) (by norm_num)

theorem r0_vp : r0.volume_pressure_risk = 50 := by
  show clip (rankPct [(10:ℚ)] a0.total_enrolments * (100 - a0.avg_bio_completion)) 0 100 = 50
  rw [show a0.total_enrolments = 10 from rfl, show a0.avg_bio_completion = 50 from rfl]
  rw [rankPct_single]
  rw [show (1:ℚ) * (100 - 50) = 50 from by norm_num]
  exact clip_eval (by norm_num) (by norm_num)

theorem r0_vol : r0.volatility_risk = 0 := by
  show (if (0:ℝ) < 0 then a0.bio_gap_volatility / 0 * 100 else 0) = 0
  exact if_neg (lt_irrefl 0)

theorem r0_CERS : r0.CERS = 27.5 := by
  have hbase : r0.CERS = round2 ((r0.gap_risk : ℝ) * 0.40 + (r0.migration_risk : ℝ) * 0.25
      + r0.volatility_risk * 0.20 + (r0.volume_pressure_risk : ℝ) * 0.15) := rfl
  rw [hbase, r0_gap, r0_mig, r0_vol, r0_vp]
  rw [show ((50:ℚ) : ℝ) * 0.40 + ((0:ℚ) : ℝ) * 0.25 + (0:ℝ) * 0.20 + ((50:ℚ) : ℝ) * 0.15
      = 27.5 from by push_cast; norm_num]
  exact round2_275

theorem r0_cat : r0.risk_category = some RiskCat.Low := by
  have hbase : r0.risk_category = riskCategory r0.CERS := rfl
  rw [hbase, r0_CERS]
  exact riskCategory_275

theorem r0_mem : r0 ∈ calculate_exclusion_risk_score [c0] := by
  rw [mem_calc]
  refine ⟨a0, ?_, ?_⟩
  · rw [districtAgg_c0]; exact List.mem_singleton_self a0
  · rw [districtAgg_c0]
    simp only [List.map_cons, List.map_nil]
    rw [listMaxR_a0]
    rfl

theorem r1_gap : r1.gap_risk = 0 := by
  show 100 - clip a1.avg_bio_completion 0 100 = 0
  rw [show a1.avg_bio_completion = 100 from rfl]
  rw [clip_eval (by norm_num) (by norm_num)]
  norm_num

theorem r1_mig : r1.migration_risk = 0 := by
  show clip (|a1.youth_ratio_enrol - a1.youth_ratio_bio| * 500) 0 100 = 0
  rw [show a1.youth_ratio_enrol = 0 from rfl, show a1.youth_ratio_bio = 0 from rfl]
  rw [show |(0:ℚ) - 0| * 500 = 0 from by simp]
  exact clip_eval (le_refl 0) (by norm_num)

theorem r1_vp : r1.volume_pressure_risk = 0 := by
  show clip (rankPct [(10:ℚ)] a1.total_enrolments * (100 - a1.avg_bio_completion)) 0 100 = 0
  rw [show a1.total_enrolments = 10 from rfl, show a1.avg_bio_completion = 100 from rfl]
  rw [rankPct_single]
  rw [show (1:ℚ) * (100 - 100) = 0 from by norm_num]
  exact clip_eval (le_refl 0) (by norm_num)

theorem r1_vol : r1.volatility_risk = 0 := by
  show (if (0:ℝ) < 0 then a1.bio_gap_volatility / 0 * 100 else 0) = 0
  exact if_neg (lt_irrefl 0)

theorem r1_CERS : r1.CERS = 0 := by
  have hbase : r1.CERS = round2 ((r1.gap_risk : ℝ) * 0.40 + (r1.migration_risk : ℝ) * 0.25
      + r1.volatility_risk * 0.20 + (r1.volume_pressure_risk : ℝ) * 0.15) := rfl
  rw [hbase, r1_gap, r1_mig, r1_vol, r1_vp]
  rw [show ((0:ℚ) : ℝ) * 0.40 + ((0:ℚ) : ℝ) * 0.25 + (0:ℝ) * 0.20 + ((0:ℚ) : ℝ) * 0.15
      = 0 from by push_cast; norm_num]
  exact round2_zero

theorem r1_cat : r1.risk_category = none := by
  have hbase : r1.risk_category = riskCategory r1.CERS := rfl
  rw [hbase, r1_CERS]
  exact riskCategory_zero

theorem calc_c1_eq : calculate_exclusion_risk_score [c1] = [r1] := by
  simp only [calculate_exclusion_risk_score]
  rw [districtAgg_c1]
  simp only [List.map_cons, List.map_nil]
  rw [listMaxR_a1]
  rfl

theorem rowAB_mem : rowAB ∈ create_integrated_dataset [er0] [dr0] [] := by
  unfold create_integrated_dataset
  exact List.mem_map.mpr ⟨(dt0, "A", "B"), by decide, rfl⟩

theorem rowCD_mem : rowCD ∈ create_integrated_dataset [er0] [dr0] [] := by
  unfold create_integrated_dataset
  exact List.mem_map.mpr ⟨(dt0, "C", "D"), by decide, rfl⟩

/-! ### Claim theorems -/

theorem perm_of_eq {α : Type} {l1 l2 : List α} (h : l1 = l2) : l1.Perm l2 :=
  h ▸ List.Perm.refl _

theorem scoreRow_CERS (mV : ℝ) (tot : List ℚ) (a : DistrictAgg) :
    (scoreRow mV tot a).CERS
      = round2 (0.40 * ((scoreRow mV tot a).gap_risk : ℝ)
        + 0.25 * ((scoreRow mV tot a).migration_risk : ℝ)
        + 0.20 * (scoreRow mV tot a).volatility_risk
        + 0.15 * ((scoreRow mV tot a).volume_pressure_risk : ℝ)) := by
  have hbase : (scoreRow mV tot a).CERS
      = round2 (((scoreRow mV tot a).gap_risk : ℝ) * 0.40
        + ((scoreRow mV tot a).migration_risk : ℝ) * 0.25
        + (scoreRow mV tot a).volatility_risk * 0.20
        + ((scoreRow mV tot a).volume_pressure_risk : ℝ) * 0.15) := rfl
  rw [hbase]
  congr 1
  ring

/-- C1: in every row of the district risk table, CERS equals the weighted
sum 0.40 * gap_risk + 0.25 * migration_risk + 0.20 * volatility_risk
+ 0.15 * volume_pressure_risk rounded to two decimals, and the scoring
stage runs exactly once per pipeline run. -/
theorem cers_weighted_sum_once :
    (∀ (df : List CombinedRow), ∀ r ∈ calculate_exclusion_risk_score df,
        r.CERS = round2 (0.40 * (r.gap_risk : ℝ) + 0.25 * (r.migration_risk : ℝ)
          + 0.20 * r.volatility_risk + 0.15 * (r.volume_pressure_risk : ℝ)))
    ∧ pipelineTrace.count Stage.score = 1 := by
  constructor
  · intro df r hr
    rw [mem_calc] at hr
    obtain ⟨a, ha, rfl⟩ := hr
    exact scoreRow_CERS _ _ _
  · decide

/-- C1 witness at the one-row input `[c0]`. -/
theorem cers_weighted_sum_once_witness :
    r0 ∈ calculate_exclusion_risk_score [c0]
    ∧ r0.CERS = round2 (0.40 * (r0.gap_risk : ℝ) + 0.25 * (r0.migration_risk : ℝ)
        + 0.20 * r0.volatility_risk + 0.15 * (r0.volume_pressure_risk : ℝ))
    ∧ pipelineTrace.count Stage.score = 1 :=
  ⟨r0_mem, cers_weighted_sum_once.1 [c0] r0 r0_mem, cers_weighted_sum_once.2⟩

/-- C2: the three datasets are aggregated at (date, state, district),
outer-merged on that key (one combined row per key present in at least
one aggregate, with no duplicates), and every column of an absent side
is filled with 0. -/
theorem integration_outer_join (e : List EnrolRow) (d : List DemoRow) (b : List BioRow) :
    ((create_integrated_dataset e d b).map combKey).Nodup
    ∧ (∀ k : Date × String × String,
        k ∈ (create_integrated_dataset e d b).map combKey ↔
          (k ∈ (enrol_agg e).map enrolAggKey ∨ k ∈ (demo_agg d).map demoAggKey
            ∨ k ∈ (bio_agg b).map bioAggKey))
    ∧ (∀ r ∈ create_integrated_dataset e d b,
        (combKey r ∉ (enrol_agg e).map enrolAggKey →
          r.age_0_5 = 0 ∧ r.age_5_17 = 0 ∧ r.age_18_greater = 0 ∧ r.enrol_count = 0)
        ∧ (combKey r ∉ (demo_agg d).map demoAggKey →
          r.demo_age_5_17 = 0 ∧ r.demo_age_17_ = 0 ∧ r.demo_count = 0)
        ∧ (combKey r ∉ (bio_agg b).map bioAggKey →
          r.bio_age_5_17 = 0 ∧ r.bio_age_17_ = 0 ∧ r.bio_count = 0)) := by
  refine ⟨?_, ?_, ?_⟩
  · rw [create_keys]
    unfold combinedKeys
    refine nodup_mergeKeys (nodup_mergeKeys ?_ ?_) ?_
    · rw [enrol_agg_keys]; exact List.nodup_dedup _
    · rw [demo_agg_keys]; exact List.nodup_dedup _
    · rw [bio_agg_keys]; exact List.nodup_dedup _
  · intro k
    rw [create_keys]
    unfold combinedKeys
    rw [mem_mergeKeys, mem_mergeKeys, or_assoc]
  · intro r hr
    rw [mem_create] at hr
    obtain ⟨k, hk, rfl⟩ := hr
    obtain ⟨k1, k2, k3⟩ := k
    refine ⟨?_, ?_, ?_⟩
    · intro h
      have hf := find_eq_none_of_key enrolAggKey (enrol_agg e) (k1, k2, k3) h
      refine ⟨?_, ?_, ?_, ?_⟩ <;> simp [engineerFeatures, mergedRowAt, hf]
    · intro h
      have hf := find_eq_none_of_key demoAggKey (demo_agg d) (k1, k2, k3) h
      refine ⟨?_, ?_, ?_⟩ <;> simp [engineerFeatures, mergedRowAt, hf]
    · intro h
      have hf := find_eq_none_of_key bioAggKey (bio_agg b) (k1, k2, k3) h
      refine ⟨?_, ?_, ?_⟩ <;> simp [engineerFeatures, mergedRowAt, hf]

/-- C2 witness: in the two-key example the enrolment-side row has all
demographic and biometric columns equal to 0. -/
theorem integration_outer_join_witness :
    rowAB ∈ create_integrated_dataset [er0] [dr0] []
    ∧ combKey rowAB ∉ (demo_agg [dr0]).map demoAggKey
    ∧ (rowAB.demo_age_5_17 = 0 ∧ rowAB.demo_age_17_ = 0 ∧ rowAB.demo_count = 0)
    ∧ combKey rowAB ∉ (bio_agg []).map bioAggKey
    ∧ (rowAB.bio_age_5_17 = 0 ∧ rowAB.bio_age_17_ = 0 ∧ rowAB.bio_count = 0) :=
  ⟨rowAB_mem, by decide,
    ((integration_outer_join [er0] [dr0] []).2.2 rowAB rowAB_mem).2.1 (by decide),
    by decide,
    ((integration_outer_join [er0] [dr0] []).2.2 rowAB rowAB_mem).2.2 (by decide)⟩

/-- C3 counterexample: the executive report embeds the wall-clock date
read by `datetime.now()` (line 732), so two runs of the pipeline on the
same (empty) inputs but on different days emit different reports. -/
theorem report_depends_on_run_date :
    run_full_analysis [] [] [] "January 01, 2026"
      ≠ run_full_analysis [] [] [] "January 02, 2026" := by
  intro h
  have h2 := congrArg Outputs.report h
  exact absurd h2 (by decide)

/-- C3 amended: for fixed inputs the combined dataset and the CERS table
are identical across runs, and outputs coincide exactly when the two
runs render the same date. -/
theorem pipeline_deterministic_given_date (e : List EnrolRow) (d : List DemoRow)
    (b : List BioRow) (t1 t2 : String) :
    (run_full_analysis e d b t1).combined = (run_full_analysis e d b t2).combined
    ∧ (run_full_analysis e d b t1).cers = (run_full_analysis e d b t2).cers
    ∧ (t1 = t2 → run_full_analysis e d b t1 = run_full_analysis e d b t2) :=
  ⟨rfl, rfl, fun h => by rw [h]⟩

/-- C3 amended witness at the empty inputs and equal dates. -/
theorem pipeline_deterministic_given_date_witness :
    ("May 05, 2026" : String) = "May 05, 2026"
    ∧ run_full_analysis [] [] [] "May 05, 2026" = run_full_analysis [] [] [] "May 05, 2026" :=
  ⟨rfl, (pipeline_deterministic_given_date [] [] [] "May 05, 2026" "May 05, 2026").2.2 rfl⟩

/-- C4: the district risk table is sorted by CERS in descending order:
every row is related to every later row, in particular each consecutive
pair, by having the larger or equal CERS. -/
theorem cers_table_sorted_desc (df : List CombinedRow) :
    (calculate_exclusion_risk_score df).Sorted fun a b => b.CERS ≤ a.CERS :=
  sortByCERS_sorted _

/-- C5: the pipeline trace of `run_full_analysis` contains the stages
load, integrate, score, visualize, report exactly once each and in that
order, and each data artefact is a function of the previous stage only:
the combined table of the loaded rows, the CERS table of the combined
table, the report of the CERS summary (and the run date). -/
theorem pipeline_stage_order :
    [Stage.load, Stage.integrate, Stage.score, Stage.visualize, Stage.report].Sublist
        pipelineTrace
    ∧ pipelineTrace.count Stage.load = 1
    ∧ pipelineTrace.count Stage.integrate = 1
    ∧ pipelineTrace.count Stage.score = 1
    ∧ pipelineTrace.count Stage.visualize = 1
    ∧ pipelineTrace.count Stage.report = 1
    ∧ ∀ (e : List EnrolRow) (d : List DemoRow) (b : List BioRow) (t : String),
        (run_full_analysis e d b t).combined = create_integrated_dataset e d b
        ∧ (run_full_analysis e d b t).cers
            = calculate_exclusion_risk_score (create_integrated_dataset e d b)
        ∧ (run_full_analysis e d b t).report
            = generate_executive_report t
                (risk_summary (calculate_exclusion_risk_score (create_integrated_dataset e d b))) := by
  refine ⟨?_, by decide, by decide, by decide, by decide, by decide, ?_⟩
  · exact .cons₂ _ (.cons₂ _ (.cons _ (.cons₂ _ (.cons _ (.cons _ (.cons₂ _ (.cons₂ _ .slnil)))))))
  · intro e d b t
    exact ⟨rfl, rfl, rfl⟩

/-- C6: the risk score is per-district: the table has exactly one row
per (state, district) pair present in the combined data (its key list is
a permutation of the distinct pairs and has no duplicates), and each row
aggregates its groups rows by the mean of the completion rates and youth
ratios, the mean and sample standard deviation of bio_enrol_gap, and the
sum of enrol_count. -/
theorem district_grouping_unique (df : List CombinedRow) :
    ((calculate_exclusion_risk_score df).map fun r => (r.state, r.district)).Perm
        ((df.map districtKey).dedup)
    ∧ ((calculate_exclusion_risk_score df).map fun r => (r.state, r.district)).Nodup
    ∧ ∀ r ∈ calculate_exclusion_risk_score df,
        r.avg_bio_completion
          = mean ((groupRows districtKey df (r.state, r.district)).map fun x => x.bio_completion_rate)
        ∧ r.avg_demo_completion
          = mean ((groupRows districtKey df (r.state, r.district)).map fun x => x.demo_completion_rate)
        ∧ r.avg_bio_gap
          = mean ((groupRows districtKey df (r.state, r.district)).map fun x => x.bio_enrol_gap)
        ∧ r.bio_gap_volatility
          = sampleStd ((groupRows districtKey df (r.state, r.district)).map fun x => x.bio_enrol_gap)
        ∧ r.youth_ratio_enrol
          = mean ((groupRows districtKey df (r.state, r.district)).map fun x => x.youth_ratio_enrol)
        ∧ r.youth_ratio_bio
          = mean ((groupRows districtKey df (r.state, r.district)).map fun x => x.youth_ratio_bio)
        ∧ r.total_enrolments
          = ((groupRows districtKey df (r.state, r.district)).map fun x => x.enrol_count).sum := by
  have hkeys : ((calculate_exclusion_risk_score df).map fun r => (r.state, r.district)).Perm
      (keysOf districtKey df) := by
    unfold calculate_exclusion_risk_score
    refine ((sortByCERS_perm _).map _).trans (perm_of_eq ?_)
    rw [List.map_map]
    exact districtAgg_keys df
  refine ⟨hkeys, (hkeys.nodup_iff).mpr ?_, ?_⟩
  · exact List.nodup_dedup _
  · intro r hr
    rw [mem_calc] at hr
    obtain ⟨a, ha, rfl⟩ := hr
    have hf := districtAgg_fields ha
    exact ⟨hf.1, hf.2.1, hf.2.2.1, hf.2.2.2.1, hf.2.2.2.2.1, hf.2.2.2.2.2.1, hf.2.2.2.2.2.2⟩

/-- C6 witness at the one-row input `[c0]`. -/
theorem district_grouping_unique_witness :
    r0 ∈ calculate_exclusion_risk_score [c0]
    ∧ r0.avg_bio_completion
        = mean ((groupRows districtKey [c0] (r0.state, r0.district)).map fun x => x.bio_completion_rate)
    ∧ r0.total_enrolments
        = ((groupRows districtKey [c0] (r0.state, r0.district)).map fun x => x.enrol_count).sum :=
  ⟨r0_mem, ((district_grouping_unique [c0]).2.2 r0 r0_mem).1,
    ((district_grouping_unique [c0]).2.2 r0 r0_mem).2.2.2.2.2.2⟩

/-- C7: on every combined row, total_enrol is the sum of the three age
bands, the gaps are enrolment count minus update count, and for positive
enrolment count the completion rates are 100 * count / enrol_count. -/
theorem derived_indicator_formulas (e : List EnrolRow) (d : List DemoRow) (b : List BioRow) :
    ∀ r ∈ create_integrated_dataset e d b,
      r.total_enrol = r.age_0_5 + r.age_5_17 + r.age_18_greater
      ∧ r.demo_enrol_gap = r.enrol_count - r.demo_count
      ∧ r.bio_enrol_gap = r.enrol_count - r.bio_count
      ∧ (0 < r.enrol_count →
          r.demo_completion_rate = 100 * r.demo_count / r.enrol_count
          ∧ r.bio_completion_rate = 100 * r.bio_count / r.enrol_count) := by
  intro r hr
  rw [mem_create] at hr
  obtain ⟨k, hk, rfl⟩ := hr
  refine ⟨rfl, rfl, rfl, fun h => ?_⟩
  have h2 : 0 < (mergedRowAt (enrol_agg e) (demo_agg d) (bio_agg b) k).enrol_count := h
  refine ⟨?_, ?_⟩
  · simp only [engineerFeatures]
    rw [if_pos h2]
    ring
  · simp only [engineerFeatures]
    rw [if_pos h2]
    ring

/-- C7 witness at the concrete enrolment-side row. -/
theorem derived_indicator_formulas_witness :
    rowAB ∈ create_integrated_dataset [er0] [dr0] []
    ∧ 0 < rowAB.enrol_count
    ∧ rowAB.total_enrol = rowAB.age_0_5 + rowAB.age_5_17 + rowAB.age_18_greater
    ∧ rowAB.demo_completion_rate = 100 * rowAB.demo_count / rowAB.enrol_count :=
  ⟨rowAB_mem, by rw [show rowAB.enrol_count = 1 from rfl]; norm_num,
    (derived_indicator_formulas [er0] [dr0] [] rowAB rowAB_mem).1,
    ((derived_indicator_formulas [er0] [dr0] [] rowAB rowAB_mem).2.2.2
      (by rw [show rowAB.enrol_count = 1 from rfl]; norm_num)).1⟩

/-- C9: all divisions of the feature engineering are guarded: a zero
enrolment count yields completion rates of 100, and a zero total yields
a youth ratio of 0. -/
theorem division_guards_total (e : List EnrolRow) (d : List DemoRow) (b : List BioRow) :
    ∀ r ∈ create_integrated_dataset e d b,
      (r.enrol_count = 0 → r.demo_completion_rate = 100 ∧ r.bio_completion_rate = 100)
      ∧ (r.total_enrol = 0 → r.youth_ratio_enrol = 0)
      ∧ (r.total_demo = 0 → r.youth_ratio_demo = 0)
      ∧ (r.total_bio = 0 → r.youth_ratio_bio = 0) := by
  intro r hr
  rw [mem_create] at hr
  obtain ⟨k, hk, rfl⟩ := hr
  refine ⟨fun h => ⟨?_, ?_⟩, fun h => ?_, fun h => ?_, fun h => ?_⟩
  · have h2 : (mergedRowAt (enrol_agg e) (demo_agg d) (bio_agg b) k).enrol_count = 0 := h
    simp only [engineerFeatures]
    rw [if_neg (by rw [h2]; exact lt_irrefl 0)]
  · have h2 : (mergedRowAt (enrol_agg e) (demo_agg d) (bio_agg b) k).enrol_count = 0 := h
    simp only [engineerFeatures]
    rw [if_neg (by rw [h2]; exact lt_irrefl 0)]
  · have h2 : (mergedRowAt (enrol_agg e) (demo_agg d) (bio_agg b) k).age_0_5
        + (mergedRowAt (enrol_agg e) (demo_agg d) (bio_agg b) k).age_5_17
        + (mergedRowAt (enrol_agg e) (demo_agg d) (bio_agg b) k).age_18_greater = 0 := h
    simp only [engineerFeatures]
    rw [if_neg (by rw [h2]; exact lt_irrefl 0)]
  · have h2 : (mergedRowAt (enrol_agg e) (demo_agg d) (bio_agg b) k).demo_age_5_17
        + (mergedRowAt (enrol_agg e) (demo_agg d) (bio_agg b) k).demo_age_17_ = 0 := h
    simp only [engineerFeatures]
    rw [if_neg (by rw [h2]; exact lt_irrefl 0)]
  · have h2 : (mergedRowAt (enrol_agg e) (demo_agg d) (bio_agg b) k).bio_age_5_17
        + (mergedRowAt (enrol_agg e) (demo_agg d) (bio_agg b) k).bio_age_17_ = 0 := h
    simp only [engineerFeatures]
    rw [if_neg (by rw [h2]; exact lt_irrefl 0)]

/-- C9 witness at the concrete demographic-side row, whose enrolment and
biometric sides are absent. -/
theorem division_guards_total_witness :
    rowCD ∈ create_integrated_dataset [er0] [dr0] []
    ∧ rowCD.enrol_count = 0
    ∧ rowCD.demo_completion_rate = 100 ∧ rowCD.bio_completion_rate = 100
    ∧ rowCD.total_bio = 0 ∧ rowCD.youth_ratio_bio = 0 :=
  ⟨rowCD_mem, rfl,
    ((division_guards_total [er0] [dr0] [] rowCD rowCD_mem).1 rfl).1,
    ((division_guards_total [er0] [dr0] [] rowCD rowCD_mem).1 rfl).2,
    by
      rw [show rowCD.total_bio = rowCD.bio_age_5_17 + rowCD.bio_age_17_ from rfl,
        show rowCD.bio_age_5_17 = 0 from rfl, show rowCD.bio_age_17_ = 0 from rfl]
      norm_num,
    (division_guards_total [er0] [dr0] [] rowCD rowCD_mem).2.2.2
      (by
        rw [show rowCD.total_bio = rowCD.bio_age_5_17 + rowCD.bio_age_17_ from rfl,
          show rowCD.bio_age_5_17 = 0 from rfl, show rowCD.bio_age_17_ = 0 from rfl]
        norm_num)⟩

theorem scoreRow_bounds (mV : ℝ) (tot : List ℚ) (a : DistrictAgg)
    (hnn : 0 ≤ a.bio_gap_volatility) (hle : a.bio_gap_volatility ≤ mV) :
    (0 ≤ (scoreRow mV tot a).gap_risk ∧ (scoreRow mV tot a).gap_risk ≤ 100)
    ∧ (0 ≤ (scoreRow mV tot a).migration_risk ∧ (scoreRow mV tot a).migration_risk ≤ 100)
    ∧ (0 ≤ (scoreRow mV tot a).volatility_risk ∧ (scoreRow mV tot a).volatility_risk ≤ 100)
    ∧ (0 ≤ (scoreRow mV tot a).volume_pressure_risk
        ∧ (scoreRow mV tot a).volume_pressure_risk ≤ 100)
    ∧ (0 ≤ (scoreRow mV tot a).CERS ∧ (scoreRow mV tot a).CERS ≤ 100) := by
  have hg1 : (0:ℚ) ≤ (scoreRow mV tot a).gap_risk := by
    show (0:ℚ) ≤ 100 - clip a.avg_bio_completion 0 100
    have h2 := clip_le100 a.avg_bio_completion
    linarith
  have hg2 : (scoreRow mV tot a).gap_risk ≤ 100 := by
    show 100 - clip a.avg_bio_completion 0 100 ≤ 100
    have h2 := clip_nonneg a.avg_bio_completion
    linarith
  have hm1 : (0:ℚ) ≤ (scoreRow mV tot a).migration_risk := clip_nonneg _
  have hm2 : (scoreRow mV tot a).migration_risk ≤ 100 := clip_le100 _
  have hv1 : (0:ℝ) ≤ (scoreRow mV tot a).volatility_risk := by
    show (0:ℝ) ≤ if 0 < mV then a.bio_gap_volatility / mV * 100 else 0
    split
    case isTrue hpos => exact mul_nonneg (div_nonneg hnn (le_of_lt hpos)) (by norm_num)
    case isFalse hpos => exact le_refl 0
  have hv2 : (scoreRow mV tot a).volatility_risk ≤ 100 := by
    show (if 0 < mV then a.bio_gap_volatility / mV * 100 else 0) ≤ 100
    split
    case isTrue hpos =>
      have hq := (div_le_one hpos).mpr hle
      linarith
    case isFalse hpos => norm_num
  have hp1 : (0:ℚ) ≤ (scoreRow mV tot a).volume_pressure_risk := clip_nonneg _
  have hp2 : (scoreRow mV tot a).volume_pressure_risk ≤ 100 := clip_le100 _
  have hcc : (scoreRow mV tot a).CERS = round2 (((scoreRow mV tot a).gap_risk : ℝ) * 0.40
      + ((scoreRow mV tot a).migration_risk : ℝ) * 0.25
      + (scoreRow mV tot a).volatility_risk * 0.20
      + ((scoreRow mV tot a).volume_pressure_risk : ℝ) * 0.15) := rfl
  have cg1 : (0:ℝ) ≤ ((scoreRow mV tot a).gap_risk : ℝ) := by exact_mod_cast hg1
  have cg2 : ((scoreRow mV tot a).gap_risk : ℝ) ≤ 100 := by exact_mod_cast hg2
  have cm1 : (0:ℝ) ≤ ((scoreRow mV tot a).migration_risk : ℝ) := by exact_mod_cast hm1
  have cm2 : ((scoreRow mV tot a).migration_risk : ℝ) ≤ 100 := by exact_mod_cast hm2
  have cp1 : (0:ℝ) ≤ ((scoreRow mV tot a).volume_pressure_risk : ℝ) := by exact_mod_cast hp1
  have cp2 : ((scoreRow mV tot a).volume_pressure_risk : ℝ) ≤ 100 := by exact_mod_cast hp2
  have hc1 : 0 ≤ (scoreRow mV tot a).CERS := by
    rw [hcc]
    apply round2_nonneg
    linarith
  have hc2 : (scoreRow mV tot a).CERS ≤ 100 := by
    rw [hcc]
    apply round2_le100
    linarith
  exact ⟨⟨hg1, hg2⟩, ⟨hm1, hm2⟩, ⟨hv1, hv2⟩, ⟨hp1, hp2⟩, hc1, hc2⟩

/-- C8: in every row of the district risk table each of the four
component scores lies in [0, 100], and so does the composite CERS. -/
theorem subscore_bounds (df : List CombinedRow) :
    ∀ r ∈ calculate_exclusion_risk_score df,
      (0 ≤ r.gap_risk ∧ r.gap_risk ≤ 100)
      ∧ (0 ≤ r.migration_risk ∧ r.migration_risk ≤ 100)
      ∧ (0 ≤ r.volatility_risk ∧ r.volatility_risk ≤ 100)
      ∧ (0 ≤ r.volume_pressure_risk ∧ r.volume_pressure_risk ≤ 100)
      ∧ (0 ≤ r.CERS ∧ r.CERS ≤ 100) := by
  intro r hr
  rw [mem_calc] at hr
  obtain ⟨a, ha, rfl⟩ := hr
  refine scoreRow_bounds _ _ a ?_ ?_
  · rw [(districtAgg_fields ha).2.2.2.1]
    exact sampleStd_nonneg _
  · exact le_listMaxR (List.mem_map_of_mem _ ha)

/-- C8 witness at the one-row input `[c0]`. -/
theorem subscore_bounds_witness :
    r0 ∈ calculate_exclusion_risk_score [c0]
    ∧ (0 ≤ r0.gap_risk ∧ r0.gap_risk ≤ 100)
    ∧ (0 ≤ r0.CERS ∧ r0.CERS ≤ 100) :=
  ⟨r0_mem, (subscore_bounds [c0] r0 r0_mem).1, (subscore_bounds [c0] r0 r0_mem).2.2.2.2⟩

theorem riskCategory_spec (c : ℝ) :
    ((0 < c ∧ c ≤ 30) → riskCategory c = some RiskCat.Low)
    ∧ ((30 < c ∧ c ≤ 50) → riskCategory c = some RiskCat.Medium)
    ∧ ((50 < c ∧ c ≤ 70) → riskCategory c = some RiskCat.High)
    ∧ ((70 < c ∧ c ≤ 100) → riskCategory c = some RiskCat.Critical)
    ∧ (c = 0 → riskCategory c = none) := by
  refine ⟨?_, ?_, ?_, ?_, ?_⟩
  · rintro ⟨h1, h2⟩
    unfold riskCategory
    rw [if_pos ⟨h1, h2⟩]
  · rintro ⟨h1, h2⟩
    unfold riskCategory
    rw [if_neg (by intro hh; linarith [hh.2]), if_pos ⟨h1, h2⟩]
  · rintro ⟨h1, h2⟩
    unfold riskCategory
    rw [if_neg (by intro hh; linarith [hh.2]), if_neg (by intro hh; linarith [hh.2]),
      if_pos ⟨h1, h2⟩]
  · rintro ⟨h1, h2⟩
    unfold riskCategory
    rw [if_neg (by intro hh; linarith [hh.2]), if_neg (by intro hh; linarith [hh.2]),
      if_neg (by intro hh; linarith [hh.2]), if_pos ⟨h1, h2⟩]
  · intro h
    subst h
    exact riskCategory_zero

theorem countCategory_cons (x : DistrictRiskRow) (t : List DistrictRiskRow) (cat : RiskCat) :
    countCategory (x :: t) cat
      = (if x.risk_category = some cat then 1 else 0) + countCategory t cat := by
  unfold countCategory
  rw [List.filter_cons]
  split
  case isTrue h =>
    rw [if_pos (of_decide_eq_true h), List.length_cons]
    omega
  case isFalse h =>
    rw [if_neg fun hp => h (decide_eq_true hp)]
    omega

theorem category_ifs_le_one (o : Option RiskCat) :
    (if o = some RiskCat.Low then 1 else 0) + (if o = some RiskCat.Medium then 1 else 0)
      + (if o = some RiskCat.High then 1 else 0)
      + (if o = some RiskCat.Critical then 1 else 0) ≤ 1 := by
  rcases o with _ | c
  · simp
  · cases c <;> simp

/-- C10: every district row is labelled Low on CERS in (0, 30], Medium
on (30, 50], High on (50, 70], Critical on (70, 100], and gets no label
when CERS = 0; consequently the four category counts never exceed the
number of districts and can be strictly fewer. -/
theorem risk_categorization :
    (∀ (df : List CombinedRow), ∀ r ∈ calculate_exclusion_risk_score df,
        ((0 < r.CERS ∧ r.CERS ≤ 30) → r.risk_category = some RiskCat.Low)
      ∧ ((30 < r.CERS ∧ r.CERS ≤ 50) → r.risk_category = some RiskCat.Medium)
      ∧ ((50 < r.CERS ∧ r.CERS ≤ 70) → r.risk_category = some RiskCat.High)
      ∧ ((70 < r.CERS ∧ r.CERS ≤ 100) → r.risk_category = some RiskCat.Critical)
      ∧ (r.CERS = 0 → r.risk_category = none))
    ∧ (∀ l : List DistrictRiskRow,
        countCategory l RiskCat.Low + countCategory l RiskCat.Medium
          + countCategory l RiskCat.High + countCategory l RiskCat.Critical ≤ l.length)
    ∧ (∃ df : List CombinedRow,
        countCategory (calculate_exclusion_risk_score df) RiskCat.Low
          + countCategory (calculate_exclusion_risk_score df) RiskCat.Medium
          + countCategory (calculate_exclusion_risk_score df) RiskCat.High
          + countCategory (calculate_exclusion_risk_score df) RiskCat.Critical
          < (calculate_exclusion_risk_score df).length) := by
  refine ⟨?_, ?_, ?_⟩
  · intro df r hr
    rw [mem_calc] at hr
    obtain ⟨a, ha, rfl⟩ := hr
    have hcat : (scoreRow (listMaxR ((districtAgg df).map fun x => x.bio_gap_volatility))
        ((districtAgg df).map fun x => x.total_enrolments) a).risk_category
        = riskCategory (scoreRow (listMaxR ((districtAgg df).map fun x => x.bio_gap_volatility))
          ((districtAgg df).map fun x => x.total_enrolments) a).CERS := rfl
    refine ⟨?_, ?_, ?_, ?_, ?_⟩ <;> intro h <;> rw [hcat]
    · exact (riskCategory_spec _).1 h
    · exact (riskCategory_spec _).2.1 h
    · exact (riskCategory_spec _).2.2.1 h
    · exact (riskCategory_spec _).2.2.2.1 h
    · exact (riskCategory_spec _).2.2.2.2 h
  · intro l
    induction l with
    | nil => simp [countCategory]
    | cons x t ih =>
      rw [countCategory_cons, countCategory_cons, countCategory_cons, countCategory_cons,
        List.length_cons]
      have hone := category_ifs_le_one x.risk_category
      omega
  · refine ⟨[c1], ?_⟩
    rw [calc_c1_eq]
    simp [countCategory, List.filter_cons, r1_cat]

/-- C10 witness at the one-row input `[c0]`, whose district has CERS 27.5
and label Low. -/
theorem risk_categorization_witness :
    r0 ∈ calculate_exclusion_risk_score [c0]
    ∧ (0 < r0.CERS ∧ r0.CERS ≤ 30)
    ∧ r0.risk_category = some RiskCat.Low :=
  ⟨r0_mem, ⟨by rw [r0_CERS]; norm_num, by rw [r0_CERS]; norm_num⟩,
    (risk_categorization.1 [c0] r0 r0_mem).1
      ⟨by rw [r0_CERS]; norm_num, by rw [r0_CERS]; norm_num⟩⟩
